import Mathlib

/-!
Shallow embedding of `dug/core/async_search.py` (class `Search`): the
Elasticsearch query builders (`_get_concepts_query`, `_get_var_query`,
`get_simple_search_query`), the query compilation and count/filter
reconciliation inside `search_concepts`, the result reshaper
`_make_result`, the request plan of `search_variables`, and the
`dump_concepts` scan loop.

Request bodies and documents are modelled as a JSON-like tree `J`.
Python dicts are ordered association lists; `updateEntries` is Python
`dict.update` (existing keys are overwritten in place, new keys are
appended in order), `delKey` is `del d[k]`.  Fallible dict subscripts
(`d[k]` raising `KeyError`) are modelled with `Except String`.
-/

set_option autoImplicit false

namespace AsyncSearch

/-- JSON-like values used for Elasticsearch request bodies and documents. -/
inductive J where
  | s : String → J
  | n : Int → J
  | arr : List J → J
  | obj : List (String × J) → J

/-- Dict subscript `d[k]` returning `none` when `d` is not a dict or lacks `k`. -/
def J.get : J → String → Option J
  | .obj kvs, k => kvs.lookup k
  | _, _ => none

/-- Chained dict subscripts `d[k1][k2]...`, `none` on any failure. -/
def J.getPath : J → List String → Option J
  | j, [] => some j
  | j, k :: ks =>
    match j.get k with
    | some v => J.getPath v ks
    | none => none

/-- Python `d.update(u)`: keys of `u` already in `d` are overwritten in
place, fresh keys of `u` are appended at the end in `u`'s order. -/
def updateEntries (d u : List (String × J)) : List (String × J) :=
  (d.map fun kv =>
    match u.lookup kv.1 with
    | some v => (kv.1, v)
    | none => kv)
  ++ u.filter fun kv => (d.lookup kv.1).isNone

/-- Python `del d[k]` on an association list (key assumed unique). -/
def delKey (d : List (String × J)) (k : String) : List (String × J) :=
  d.filter fun kv => kv.1 != k

/-- Python `d[k] = v` on a dict value: overwrite in place or append. -/
def objSet (j : J) (k : String) (v : J) : J :=
  match j with
  | .obj kvs => .obj (updateEntries kvs [(k, v)])
  | other => other

/-- Dict subscript that raises `KeyError` like Python's `d[k]`. -/
def getKeyE (j : J) (k : String) : Except String J :=
  match j.get k with
  | some v => .ok v
  | none => .error ("KeyError: " ++ k)

/-- View a value as a dict's entry list, `TypeError` otherwise. -/
def asEntries (j : J) : Except String (List (String × J)) :=
  match j with
  | .obj kvs => .ok kvs
  | _ => .error "TypeError: not a dict"

/-! ## Query builders (source lines 112-218, 514-626, 628-641) -/

/-- The `filter` clause group of `_get_concepts_query`: both `description`
and `name` must be non-empty (wildcard existence checks). -/
def concepts_filter_bool_entries : List (String × J) :=
  [("must", .arr
    [.obj [("wildcard", .obj [("description", .s "?*")])],
     .obj [("wildcard", .obj [("name", .s "?*")])]])]

/-- The nine `should` clauses of `_get_concepts_query`, in source order. -/
def concepts_should_clauses (query : String) (fuzziness prefix_length : Int) : List J :=
  [.obj [("match_phrase", .obj [("name", .obj
      [("query", .s query), ("boost", .n 10)])])],
   .obj [("match_phrase", .obj [("description", .obj
      [("query", .s query), ("boost", .n 6)])])],
   .obj [("match_phrase", .obj [("search_terms", .obj
      [("query", .s query), ("boost", .n 8)])])],
   .obj [("match", .obj [("name", .obj
      [("query", .s query), ("fuzziness", .n fuzziness),
       ("prefix_length", .n prefix_length), ("operator", .s "and"),
       ("boost", .n 4)])])],
   .obj [("match", .obj [("search_terms", .obj
      [("query", .s query), ("fuzziness", .n fuzziness),
       ("prefix_length", .n prefix_length), ("operator", .s "and"),
       ("boost", .n 5)])])],
   .obj [("match", .obj [("description", .obj
      [("query", .s query), ("fuzziness", .n fuzziness),
       ("prefix_length", .n prefix_length), ("operator", .s "and"),
       ("boost", .n 3)])])],
   .obj [("match", .obj [("description", .obj
      [("query", .s query), ("fuzziness", .n fuzziness),
       ("prefix_length", .n prefix_length), ("boost", .n 2)])])],
   .obj [("match", .obj [("search_terms", .obj
      [("query", .s query), ("fuzziness", .n fuzziness),
       ("prefix_length", .n prefix_length), ("boost", .n 1)])])],
   .obj [("match", .obj [("optional_terms", .obj
      [("query", .s query), ("fuzziness", .n fuzziness),
       ("prefix_length", .n prefix_length)])])]]

/-- Embedding of `Search._get_concepts_query` (source lines 112-218). -/
def get_concepts_query (query : String) (fuzziness prefix_length : Int) : J :=
  .obj [("query", .obj [("bool", .obj
    [("filter", .obj [("bool", .obj concepts_filter_bool_entries)]),
     ("should", .arr (concepts_should_clauses query fuzziness prefix_length)),
     ("minimum_should_match", .n 1)])])]

/-- The ten `should` clauses of `_get_var_query`, in source order. -/
def var_should_clauses (query : String) (fuzziness prefix_length : Int) : List J :=
  [.obj [("match_phrase", .obj [("element_name", .obj
      [("query", .s query), ("boost", .n 10)])])],
   .obj [("match_phrase", .obj [("element_desc", .obj
      [("query", .s query), ("boost", .n 6)])])],
   .obj [("match_phrase", .obj [("search_terms", .obj
      [("query", .s query), ("boost", .n 8)])])],
   .obj [("match", .obj [("element_name", .obj
      [("query", .s query), ("fuzziness", .n fuzziness),
       ("prefix_length", .n prefix_length), ("operator", .s "and"),
       ("boost", .n 4)])])],
   .obj [("match", .obj [("search_terms", .obj
      [("query", .s query), ("fuzziness", .n fuzziness),
       ("prefix_length", .n prefix_length), ("operator", .s "and"),
       ("boost", .n 5)])])],
   .obj [("match", .obj [("element_desc", .obj
      [("query", .s query), ("fuzziness", .n fuzziness),
       ("prefix_length", .n prefix_length), ("operator", .s "and"),
       ("boost", .n 3)])])],
   .obj [("match", .obj [("element_desc", .obj
      [("query", .s query), ("fuzziness", .n fuzziness),
       ("prefix_length", .n prefix_length), ("boost", .n 2)])])],
   .obj [("match", .obj [("element_name", .obj
      [("query", .s query), ("fuzziness", .n fuzziness),
       ("prefix_length", .n prefix_length), ("boost", .n 2)])])],
   .obj [("match", .obj [("search_terms", .obj
      [("query", .s query), ("fuzziness", .n fuzziness),
       ("prefix_length", .n prefix_length), ("boost", .n 1)])])],
   .obj [("match", .obj [("optional_terms", .obj
      [("query", .s query), ("fuzziness", .n fuzziness),
       ("prefix_length", .n prefix_length)])])]]

/-- Embedding of `Search._get_var_query` (source lines 514-626).  When `concept` is a
non-empty string (Python truthiness), a `must` key is added to the bool
dict after `should`. -/
def get_var_query (concept : String) (fuzziness prefix_length : Int) (query : String) : J :=
  let bool_entries : List (String × J) :=
    [("should", .arr (var_should_clauses query fuzziness prefix_length))]
  let bool_entries :=
    if concept ≠ "" then
      updateEntries bool_entries
        [("must", .obj [("match", .obj [("identifiers", .s concept)])])]
    else bool_entries
  .obj [("query", .obj [("bool", .obj bool_entries)])]

/-- Embedding of `Search.get_simple_search_query` (source lines 628-641). -/
def get_simple_search_query (query : String) : J :=
  .obj [("query", .obj [("simple_query_string", .obj
    [("query", .s query),
     ("fields", .arr [.s "name", .s "description", .s "search_terms"]),
     ("default_operator", .s "and"),
     ("flags", .s "OR|AND|NOT|PHRASE|PREFIX")])])]

/-! ## `search_concepts`: query compilation and count reconciliation
(source lines 220-261) -/

/-- The reserved-character test of `search_concepts` (line 225):
Python `"*" in query or "\"" in query or "+" in query or "-" in query`
(single-character substring membership, i.e. character membership). -/
def hasReservedChar (query : String) : Bool :=
  query.data.contains '*' || query.data.contains '"' ||
  query.data.contains '+' || query.data.contains '-'

/-- The branch at lines 225-228 choosing the simple-operator query or the
weighted concept query. -/
def search_concepts_base (query : String) (fuzziness prefix_length : Int) : J :=
  if hasReservedChar query then get_simple_search_query query
  else get_concepts_query query fuzziness prefix_length

/-- The `aggs` value set at line 230. -/
def type_count_aggs : J :=
  .obj [("type-count", .obj [("terms", .obj [("field", .s "type")])])]

/-- The bool entries of the `post_filter` set at lines 232-239. -/
def post_filter_bool_entries (types : List String) : List (String × J) :=
  [("should", .arr (types.map fun t =>
      J.obj [("term", .obj [("type", .obj [("value", .s t)])])])),
   ("minimum_should_match", .n 1)]

/-- The search body compiled by `search_concepts` (lines 225-239): the
chosen base query, plus `aggs`, plus - when `types` is a list - the
`post_filter`.  `types = none` models Python `types=None` (or any
non-list value, which fails `isinstance(types, list)`). -/
def search_concepts_body (query : String) (types : Option (List String))
    (fuzziness prefix_length : Int) : J :=
  let body := objSet (search_concepts_base query fuzziness prefix_length)
    "aggs" type_count_aggs
  match types with
  | some ts => objSet body "post_filter" (.obj [("bool", .obj (post_filter_bool_entries ts))])
  | none => body

/-- The reconciliation `search_concepts` performs before the count request
(lines 250-257): `del search_body["aggs"]`, and when a `post_filter` is
present, `search_body["query"]["bool"]["filter"]["bool"].update(
search_body["post_filter"]["bool"])` followed by
`del search_body["post_filter"]`.  Each Python subscript that can raise
`KeyError` is a fallible step. -/
def reconcileForCount (body : J) : Except String J := do
  let kvs ← asEntries body
  let kvs ←
    if (kvs.lookup "aggs").isSome then pure (delKey kvs "aggs")
    else .error "KeyError: aggs"
  match kvs.lookup "post_filter" with
  | none => pure (J.obj kvs)
  | some pf => do
    let q ← getKeyE (J.obj kvs) "query"
    let qb ← getKeyE q "bool"
    let fl ← getKeyE qb "filter"
    let flb ← getKeyE fl "bool"
    let flbEntries ← asEntries flb
    let pfb ← getKeyE pf "bool"
    let pfbEntries ← asEntries pfb
    let fl' := objSet fl "bool" (.obj (updateEntries flbEntries pfbEntries))
    let qb' := objSet qb "filter" fl'
    let q' := objSet q "bool" qb'
    pure (J.obj (delKey (updateEntries kvs [("query", q')]) "post_filter"))

/-! ## The result reshaper `_make_result` (source lines 333-386) -/

/-- The fields `_make_result` reads from a hit's `_source` dict. -/
structure HitSource where
  data_type : String
  element_id : String
  collection_id : String
  element_desc : String
  element_action : String
  element_name : String
  collection_action : String
  collection_name : String

/-- A raw hit: `_source` plus `_score` (scores are opaque here; the
reshaper never reads `_score` - see `elem_info`). -/
structure Hit where
  source : HitSource
  score : Int

/-- The Python `count` response consumed as `total_items['count']`. -/
structure CountResult where
  count : Int

/-- A value that is either a dict or a list, as `new_results` is in
`_make_result` after the category-filter step. -/
inductive PyVal where
  | dict : List (String × J) → PyVal
  | list : List J → PyVal

/-- Python `v.update(u)`: succeeds on a dict, raises `AttributeError`
when `v` is a list. -/
def pyUpdate (v : PyVal) (u : List (String × J)) : Except String PyVal :=
  match v with
  | .dict kvs => .ok (.dict (updateEntries kvs u))
  | .list _ => .error "AttributeError: list object has no attribute update"

/-- The `elem_info` dict built at lines 348-353.  Lines 355-356 read
`if scored: elem_info["score"]: round(elem['_score'], 6)` - in Python an
annotated statement with no right-hand side, which assigns nothing, so no
`score` key is ever added, whatever `scored` is. -/
def elem_info (src : HitSource) : J :=
  .obj [("description", .s src.element_desc),
        ("e_link", .s src.element_action),
        ("id", .s src.element_id),
        ("name", .s src.element_name)]

/-- The fresh collection document of lines 361-366. -/
def new_doc (src : HitSource) : J :=
  .obj [("c_id", .s src.collection_id),
        ("c_link", .s src.collection_action),
        ("c_name", .s src.collection_name),
        ("elements", .arr [elem_info src])]

/-- Line 374: append `elem_info` to the doc's `elements` list. -/
def appendElement (doc : J) (e : J) : J :=
  match doc with
  | .obj kvs => .obj (kvs.map fun kv =>
      if kv.1 == "elements" then
        ("elements", match kv.2 with
          | .arr es => J.arr (es ++ [e])
          | other => other)
      else kv)
  | other => other

/-- Lines 358-374: insert one element into a category's collection map
(collection id -> doc), creating the doc on first sight, appending
otherwise. -/
def addToCollections (docs : List (String × J)) (src : HitSource) : List (String × J) :=
  match docs.lookup src.collection_id with
  | none => docs ++ [(src.collection_id, new_doc src)]
  | some _ => docs.map fun cd =>
      if cd.1 == src.collection_id then (cd.1, appendElement cd.2 (elem_info src))
      else cd

/-- One iteration of the loop at lines 340-374 over `new_results`
(category -> collection map). -/
def groupStep (acc : List (String × List (String × J))) (h : Hit) :
    List (String × List (String × J)) :=
  let src := h.source
  match acc.lookup src.data_type with
  | none => acc ++ [(src.data_type, addToCollections [] src)]
  | some _ => acc.map fun td =>
      if td.1 == src.data_type then (td.1, addToCollections td.2 src)
      else td

/-- Python truthiness of the `data_type` argument (`bool(data_type)`):
`None` and the empty string are falsy. -/
def pyTruthy : Option String → Bool
  | none => false
  | some s => s ≠ ""

/-- Embedding of `Search._make_result` (source lines 333-386).  Returns
`Except String` because the final `new_results.update(...)` raises
`AttributeError` when the category-filter step has rebound `new_results`
to a list. -/
def make_result (data_type : Option String) (search_results : List Hit)
    (total_items : CountResult) (scored : Bool) : Except String PyVal :=
  if search_results.isEmpty then
    pyUpdate (.dict []) [("total_items", .n total_items.count)]
  else
    let grouped := search_results.foldl groupStep []
    let flattened : List (String × List J) :=
      grouped.map fun td => (td.1, td.2.map fun cd => cd.2)
    let new_results : PyVal :=
      if pyTruthy data_type then
        match flattened.lookup (data_type.getD "") with
        | some docs => .list docs
        | none => .dict []
      else
        .dict (flattened.map fun td => (td.1, J.arr td.2))
    pyUpdate new_results [("total_items", .n total_items.count)]

/-! ## `search_variables` request plan (source lines 275-308) -/

/-- The two engine requests `search_variables` issues. -/
structure VarSearchRequests where
  count_index : String
  count_body : J
  search_index : String
  search_body : J

/-- The request plan of `Search.search_variables` (lines 289-301): the
count request goes to the caller-supplied index (defaulting to
`"variables_index"` when `None`), the paginated search request goes to
the literal `"variables_index"`. -/
def search_variables_requests (concept query : String)
    (fuzziness prefix_length : Int) (index : Option String) : VarSearchRequests :=
  let es_query := get_var_query concept fuzziness prefix_length query
  let index :=
    match index with
    | none => "variables_index"
    | some i => i
  { count_index := index, count_body := es_query,
    search_index := "variables_index", search_body := es_query }

/-! ## `dump_concepts` (source lines 60-91) -/

/-- The accumulation loop of `dump_concepts` (lines 71-81): the break
condition is `counter == size and size != 0`; `size = none` models
Python `size=None`, where `counter == None` is `False`. -/
def dump_loop : List J → Option Nat → Nat → List J
  | [], _, _ => []
  | d :: ds, size, counter =>
    if (match size with
        | some s => counter == s && !(s == 0)
        | none => false) then []
    else d :: dump_loop ds size (counter + 1)

/-- The collaborator requests and the returned value of
`Search.dump_concepts` (lines 60-91).  The `query` parameter is
immediately rebound to the constant `match_all` dict (lines 65-67);
`scanDocs` is the document stream the scan collaborator yields and
`countResp` the count collaborator's response, stored wholesale under
`total_items`. -/
structure DumpRun where
  count_index : String
  count_body : J
  scan_index : String
  scan_body : J
  response : J

def dump_concepts (index : String) (query : J) (size : Option Nat)
    (scanDocs : List J) (countResp : J) : DumpRun :=
  let query := J.obj [("match_all", .obj [])]
  let body := J.obj [("query", query)]
  let all_docs := dump_loop scanDocs size 0
  { count_index := index, count_body := body,
    scan_index := index, scan_body := body,
    response := .obj
      [("status", .s "success"),
       ("result", .obj
         [("hits", .obj [("hits", .arr all_docs)]),
          ("total_items", countResp)]),
       ("message", .s "Search result")] }

/-- The `result.hits.hits` list of a `dump_concepts` response. -/
def hitsOf (response : J) : List J :=
  match response.getPath ["result", "hits", "hits"] with
  | some (.arr l) => l
  | _ => []

/-! ## Views used by the theorems -/

/-- The `should` clause list of a compiled query. -/
def shouldClauses (j : J) : List J :=
  match j.getPath ["query", "bool", "should"] with
  | some (.arr cs) => cs
  | _ => []

/-- The (match-mode, boost) shape of one should clause: the clause's
single outer key, and its `boost` entry when present. -/
def clauseShape (c : J) : Option (String × Option Int) :=
  match c with
  | .obj [(mode, .obj [(_, .obj params)])] =>
    some (mode,
      match params.lookup "boost" with
      | some (.n b) => some b
      | _ => none)
  | _ => none

/-- The field name targeted by one should clause. -/
def clauseField (c : J) : Option String :=
  match c with
  | .obj [(_, .obj [(field, _)])] => some field
  | _ => none

/-- The `query.bool.filter.bool` entry list of a compiled query. -/
def filterBoolEntries (j : J) : Option (List (String × J)) :=
  match j.getPath ["query", "bool", "filter", "bool"] with
  | some (.obj kvs) => some kvs
  | _ => none

/-! ## Claims -/

/-- Claim C1, counterexample: at the empty query with no concept scope
(and fuzziness 1, prefix length 3), the variable query builder emits ten
should clauses, not nine, and its (match-mode, boost) table differs from
the concept builder's - the claim that both emit exactly nine clauses
with structurally identical tables is false. -/
theorem C1_counterexample :
    (shouldClauses (get_var_query "" 1 3 "")).length = 10 ∧
    (shouldClauses (get_var_query "" 1 3 "")).map clauseShape ≠
      (shouldClauses (get_concepts_query "" 1 3)).map clauseShape := by
  constructor
  · rfl
  · decide

/-- Claim C1, amended: for every request with empty query string and no
concept scope, the concept builder emits exactly nine should clauses, in
the fixed order with boosts 10, 6, 8, 4, 5, 3, 2, 1, none, on fields
name / description / search_terms / optional_terms; the variable builder
emits ten should clauses with boosts 10, 6, 8, 4, 5, 3, 2, 2, 1, none -
its table is the concept table with one extra fuzzy OR match (boost 2)
on `element_name` inserted at position 8, and apart from that inserted
clause only the field names differ (`element_name` / `element_desc` for
`name` / `description`). -/
theorem C1_amended (fuzziness prefix_length : Int) :
    (shouldClauses (get_concepts_query "" fuzziness prefix_length)).map clauseShape =
      [some ("match_phrase", some 10), some ("match_phrase", some 6),
       some ("match_phrase", some 8), some ("match", some 4),
       some ("match", some 5), some ("match", some 3),
       some ("match", some 2), some ("match", some 1),
       some ("match", none)] ∧
    (shouldClauses (get_var_query "" fuzziness prefix_length "")).map clauseShape =
      [some ("match_phrase", some 10), some ("match_phrase", some 6),
       some ("match_phrase", some 8), some ("match", some 4),
       some ("match", some 5), some ("match", some 3),
       some ("match", some 2), some ("match", some 2),
       some ("match", some 1), some ("match", none)] ∧
    (shouldClauses (get_concepts_query "" fuzziness prefix_length)).map clauseField =
      [some "name", some "description", some "search_terms", some "name",
       some "search_terms", some "description", some "description",
       some "search_terms", some "optional_terms"] ∧
    (shouldClauses (get_var_query "" fuzziness prefix_length "")).map clauseField =
      [some "element_name", some "element_desc", some "search_terms",
       some "element_name", some "search_terms", some "element_desc",
       some "element_desc", some "element_name", some "search_terms",
       some "optional_terms"] := by
  refine ⟨rfl, rfl, rfl, rfl⟩

/-! Helper lemmas on the branch taken by `search_concepts`. -/

theorem search_concepts_base_of_reserved (query : String) (fuzziness prefix_length : Int)
    (h : hasReservedChar query = true) :
    search_concepts_base query fuzziness prefix_length = get_simple_search_query query := by
  simp [search_concepts_base, h]

theorem search_concepts_base_of_plain (query : String) (fuzziness prefix_length : Int)
    (h : hasReservedChar query = false) :
    search_concepts_base query fuzziness prefix_length =
      get_concepts_query query fuzziness prefix_length := by
  simp [search_concepts_base, h]

theorem search_concepts_body_of_plain (query : String) (types : List String)
    (fuzziness prefix_length : Int) (h : hasReservedChar query = false) :
    search_concepts_body query (some types) fuzziness prefix_length =
      objSet (objSet (get_concepts_query query fuzziness prefix_length)
          "aggs" type_count_aggs)
        "post_filter" (.obj [("bool", .obj (post_filter_bool_entries types))]) := by
  simp [search_concepts_body, search_concepts_base_of_plain query fuzziness prefix_length h]

theorem search_concepts_body_of_reserved (query : String) (types : List String)
    (fuzziness prefix_length : Int) (h : hasReservedChar query = true) :
    search_concepts_body query (some types) fuzziness prefix_length =
      objSet (objSet (get_simple_search_query query) "aggs" type_count_aggs)
        "post_filter" (.obj [("bool", .obj (post_filter_bool_entries types))]) := by
  simp [search_concepts_body, search_concepts_base_of_reserved query fuzziness prefix_length h]

/-- Claim C2: for every concept-search query compiled on the weighted
path (the path on which the query has a `filter` clause group, which the
claim's "the original filter" presupposes) with a `types` list, the
reconciliation before the count request yields a query with no `aggs`
key and no `post_filter` key, whose `filter` bool group is the original
filter's entries followed by all of the post_filter's bool entries -
a merge in which no original entry is lost or replaced. -/
theorem C2_reconciled_filter_union (query : String) (types : List String)
    (fuzziness prefix_length : Int) (h : hasReservedChar query = false) :
    ∃ r, reconcileForCount (search_concepts_body query (some types) fuzziness prefix_length) =
        .ok r ∧
      r.get "aggs" = none ∧
      r.get "post_filter" = none ∧
      filterBoolEntries r =
        some (concepts_filter_bool_entries ++ post_filter_bool_entries types) := by
  rw [search_concepts_body_of_plain query types fuzziness prefix_length h]
  exact ⟨_, rfl, rfl, rfl, rfl⟩

/-- Witness for C2 at a concrete request. -/
theorem C2_reconciled_filter_union_witness :
    hasReservedChar "diabetes" = false ∧
    ∃ r, reconcileForCount (search_concepts_body "diabetes" (some ["disease"]) 1 3) =
        .ok r ∧
      r.get "aggs" = none ∧
      r.get "post_filter" = none ∧
      filterBoolEntries r =
        some (concepts_filter_bool_entries ++ post_filter_bool_entries ["disease"]) :=
  ⟨by decide, C2_reconciled_filter_union "diabetes" ["disease"] 1 3 (by decide)⟩

/-- Claim C5: a query containing any of the characters asterisk,
double-quote, plus, minus compiles to the simple-operator query - a
`simple_query_string` clause with fields name, description, search_terms,
default_operator "and", flags "OR|AND|NOT|PHRASE|PREFIX" - and has no
`should` clause list at all; a query containing none of them compiles to
the weighted concept query. -/
theorem C5_branch_selection (query : String) (fuzziness prefix_length : Int) :
    (hasReservedChar query = true →
      search_concepts_base query fuzziness prefix_length = get_simple_search_query query ∧
      (search_concepts_base query fuzziness prefix_length).getPath
          ["query", "simple_query_string", "fields"] =
        some (.arr [.s "name", .s "description", .s "search_terms"]) ∧
      (search_concepts_base query fuzziness prefix_length).getPath
          ["query", "simple_query_string", "default_operator"] = some (.s "and") ∧
      (search_concepts_base query fuzziness prefix_length).getPath
          ["query", "simple_query_string", "flags"] = some (.s "OR|AND|NOT|PHRASE|PREFIX") ∧
      shouldClauses (search_concepts_base query fuzziness prefix_length) = []) ∧
    (hasReservedChar query = false →
      search_concepts_base query fuzziness prefix_length =
        get_concepts_query query fuzziness prefix_length) := by
  constructor
  · intro h
    rw [search_concepts_base_of_reserved query fuzziness prefix_length h]
    exact ⟨rfl, rfl, rfl, rfl, rfl⟩
  · intro h
    exact search_concepts_base_of_plain query fuzziness prefix_length h

/-- Witness for C5 on both branches: "diabetes*" takes the simple path,
"diabetes" the weighted path. -/
theorem C5_branch_selection_witness :
    (hasReservedChar "diabetes*" = true ∧
      search_concepts_base "diabetes*" 1 3 = get_simple_search_query "diabetes*") ∧
    (hasReservedChar "diabetes" = false ∧
      search_concepts_base "diabetes" 1 3 = get_concepts_query "diabetes" 1 3) :=
  ⟨⟨by decide, ((C5_branch_selection "diabetes*" 1 3).1 (by decide)).1⟩,
   ⟨by decide, (C5_branch_selection "diabetes" 1 3).2 (by decide)⟩⟩

/-- Claim C9: when the query contains a reserved character and `types`
is a list, the compiled body has no `query.bool` group at all, so the
reconciliation before the count request stops with a `KeyError` lookup
failure instead of producing a count query. -/
theorem C9_reserved_with_types_keyerror (query : String) (types : List String)
    (fuzziness prefix_length : Int) (h : hasReservedChar query = true) :
    (search_concepts_body query (some types) fuzziness prefix_length).getPath
        ["query", "bool"] = none ∧
    reconcileForCount (search_concepts_body query (some types) fuzziness prefix_length) =
      .error "KeyError: bool" := by
  rw [search_concepts_body_of_reserved query types fuzziness prefix_length h]
  exact ⟨rfl, rfl⟩

/-- Witness for C9 at a concrete request. -/
theorem C9_reserved_with_types_keyerror_witness :
    hasReservedChar "diabetes*" = true ∧
    reconcileForCount (search_concepts_body "diabetes*" (some ["disease"]) 1 3) =
      .error "KeyError: bool" :=
  ⟨by decide,
   (C9_reserved_with_types_keyerror "diabetes*" ["disease"] 1 3 (by decide)).2⟩

/-- Claim C6: reshaping an empty hit list returns exactly the singleton
dict with the total count, for every category filter and scored flag,
and never an error. -/
theorem C6_empty_hits (data_type : Option String) (n : Int) (scored : Bool) :
    make_result data_type [] ⟨n⟩ scored = .ok (.dict [("total_items", .n n)]) := rfl

/-- A concrete hit used to evaluate the reshaper's category filter. -/
def hitPhenotype : Hit :=
  { source := { data_type := "phenotype", element_id := "E1", collection_id := "COLL1",
                element_desc := "d", element_action := "ea", element_name := "en",
                collection_action := "ca", collection_name := "cn" },
    score := 1 }

/-- Claim C3, failing evaluation: when the requested category is present
in the grouped map, `_make_result` rebinds `new_results` to that
category's list and then calls `.update` on it, which raises
`AttributeError` - it does not return the list with `total_items`
attached.  When the requested category is absent it does return
`{total_items: N}` as the claim says. -/
theorem C3_present_category_crashes :
    make_result (some "phenotype") [hitPhenotype] ⟨1⟩ true =
      .error "AttributeError: list object has no attribute update" ∧
    make_result (some "absent") [hitPhenotype] ⟨1⟩ true =
      .ok (.dict [("total_items", .n 1)]) := ⟨rfl, rfl⟩

/-- A concrete hit used to evaluate the score attachment. -/
def hitScored : Hit :=
  { source := { data_type := "dt", element_id := "E2", collection_id := "CL2",
                element_desc := "desc", element_action := "act", element_name := "nm",
                collection_action := "cact", collection_name := "cname" },
    score := 7 }

/-- Claim C4, failing evaluation: with `scored = true` the produced
element entry carries exactly the four keys description, e_link, id,
name and no `score` key - the source's score line is a Python annotated
statement with no right-hand side and assigns nothing. -/
theorem C4_no_score_key :
    make_result none [hitScored] ⟨5⟩ true =
      .ok (.dict
        [("dt", .arr [.obj
          [("c_id", .s "CL2"), ("c_link", .s "cact"), ("c_name", .s "cname"),
           ("elements", .arr [.obj
             [("description", .s "desc"), ("e_link", .s "act"),
              ("id", .s "E2"), ("name", .s "nm")]])]]),
         ("total_items", .n 5)]) ∧
    (elem_info hitScored.source).get "score" = none := ⟨rfl, rfl⟩

/-! Helper lemmas on the `dump_concepts` accumulation loop. -/

theorem dump_loop_none (ds : List J) : ∀ c, dump_loop ds none c = ds := by
  induction ds with
  | nil => intro c; rfl
  | cons d ds ih => intro c; simp [dump_loop, ih]

theorem dump_loop_zero (ds : List J) : ∀ c, dump_loop ds (some 0) c = ds := by
  induction ds with
  | nil => intro c; rfl
  | cons d ds ih => intro c; simp [dump_loop, ih]

theorem dump_loop_take (ds : List J) (n : Nat) (hn : 0 < n) :
    ∀ c, c ≤ n → dump_loop ds (some n) c = ds.take (n - c) := by
  induction ds with
  | nil => intro c _; simp [dump_loop]
  | cons d ds ih =>
    intro c hc
    by_cases hcn : c = n
    · subst hcn
      have hcond : (c == c && !(c == 0)) = true := by
        simp
        omega
      simp [dump_loop, hcond, Nat.sub_self]
      omega
    · have hlt : c < n := Nat.lt_of_le_of_ne hc hcn
      have hcond : (c == n && !(n == 0)) = false := by simp [hcn]
      have hsub : n - c = (n - (c + 1)) + 1 := by omega
      rw [hsub]
      simp [dump_loop, hcond, List.take_succ_cons, ih (c + 1) hlt]

/-- Claim C7, counterexample: with `size = 0` and a two-document scan
stream, `dump_concepts` returns both documents in `result.hits.hits` -
`size = 0` does not mean "stop immediately" (the break condition
`counter == size and size != 0` is never true when `size == 0`). -/
theorem C7_counterexample :
    hitsOf (dump_concepts "concepts_index" (J.obj []) (some 0)
      [J.s "doc1", J.s "doc2"] (J.n 2)).response = [J.s "doc1", J.s "doc2"] ∧
    [J.s "doc1", J.s "doc2"] ≠ ([] : List J) :=
  ⟨rfl, by simp⟩

/-- Claim C7, amended: `dump_concepts` applies a cutoff in which both
`size = None` (unset) and `size = 0` mean no cutoff - every scanned
document is returned - while a positive `size = n` returns exactly the
first `n` scanned documents (at most `n` accumulated). -/
theorem C7_amended (index : String) (query countResp : J) (scanDocs : List J) (n : Nat) :
    hitsOf (dump_concepts index query none scanDocs countResp).response = scanDocs ∧
    hitsOf (dump_concepts index query (some 0) scanDocs countResp).response = scanDocs ∧
    (0 < n →
      hitsOf (dump_concepts index query (some n) scanDocs countResp).response =
        scanDocs.take n) := by
  have hview : ∀ size, hitsOf (dump_concepts index query size scanDocs countResp).response =
      dump_loop scanDocs size 0 := fun _ => rfl
  refine ⟨?_, ?_, ?_⟩
  · rw [hview]; exact dump_loop_none scanDocs 0
  · rw [hview]; exact dump_loop_zero scanDocs 0
  · intro hn
    rw [hview, dump_loop_take scanDocs n hn 0 (Nat.zero_le n), Nat.sub_zero]

/-- Witness for the positive-cutoff part of the amended C7. -/
theorem C7_amended_witness :
    0 < 1 ∧
    hitsOf (dump_concepts "concepts_index" (J.obj []) (some 1)
      [J.s "doc1", J.s "doc2"] (J.n 2)).response = [J.s "doc1", J.s "doc2"].take 1 :=
  ⟨Nat.one_pos,
   (C7_amended "concepts_index" (J.obj []) (J.n 2) [J.s "doc1", J.s "doc2"] 1).2.2
     Nat.one_pos⟩

/-- Claim C8: for every value of the `index` argument, the paginated
search request of `search_variables` goes to the constant
`"variables_index"` (so the searched index is independent of the
argument), while the count request goes to the caller-supplied index,
defaulting to `"variables_index"` when it is `None`. -/
theorem C8_search_index_constant (concept query : String) (fuzziness prefix_length : Int)
    (index : Option String) :
    (search_variables_requests concept query fuzziness prefix_length index).search_index =
      "variables_index" ∧
    (search_variables_requests concept query fuzziness prefix_length index).count_index =
      index.getD "variables_index" ∧
    ∀ index2 : Option String,
      (search_variables_requests concept query fuzziness prefix_length index).search_index =
        (search_variables_requests concept query fuzziness prefix_length index2).search_index := by
  refine ⟨rfl, ?_, fun _ => rfl⟩
  cases index <;> rfl

/-- Claim C10: `dump_concepts` ignores its `query` argument - for any
two query values the whole run (in particular the identical body sent to
the count and scan collaborators) is the same, and that body is the
constant `match_all` query. -/
theorem C10_query_ignored (index : String) (q1 q2 : J) (size : Option Nat)
    (scanDocs : List J) (countResp : J) :
    dump_concepts index q1 size scanDocs countResp =
      dump_concepts index q2 size scanDocs countResp ∧
    (dump_concepts index q1 size scanDocs countResp).count_body =
      J.obj [("query", J.obj [("match_all", J.obj [])])] ∧
    (dump_concepts index q1 size scanDocs countResp).scan_body =
      (dump_concepts index q1 size scanDocs countResp).count_body :=
  ⟨rfl, rfl, rfl⟩

end AsyncSearch
